import Mathlib

/-!
Shallow embedding of `python/lsst/obs/lsst/lsstCamMapper.py` (obs_lsstCam),
together with theorems checking the natural-language specification against it.

The embedding covers:
* the coadd dataset-identifier encoder `LsstCamMapper._computeCoaddExposureId`
  and its bit-width companions `bypass_deepCoaddId_bits` /
  `bypass_deepMergedCoaddId_bits`;
* the raw composite assembler `assemble_raw` (geometry reconciliation,
  IRAF-keyword cross-check, WCS attachment) and `getWcsFromDetector`;
* the channel-expanding query `LsstCamMapper.query_raw_amp`.

Python machine integers are modelled as `Int` (Python ints are unbounded, and
every shift in the source acts on nonnegative in-range values, so `x << n` is
`x * 2 ^ n`).  Fallible code returns `Except String`.  External collaborators
(afw image/geom, `AssembleCcdTask`, FITS I/O) enter only as recorded
constructor arguments or as function parameters.
-/

namespace LsstCamMapper

/-! ### Bit-width constants (`LsstCamMapper.__init__`, lines 259-264) -/

/-- `LsstCamMapper._nbit_tract = 16`. -/
def nbit_tract : Nat := 16

/-- `LsstCamMapper._nbit_patch = 5`. -/
def nbit_patch : Nat := 5

/-- `LsstCamMapper._nbit_filter = 6`. -/
def nbit_filter : Nat := 6

/-- `LsstCamMapper._nbit_id = 64 - (_nbit_tract + 2*_nbit_patch + _nbit_filter)`. -/
def nbit_id : Nat := 64 - (nbit_tract + 2 * nbit_patch + nbit_filter)

/-! ### The coadd identifier encoder (`_computeCoaddExposureId`, lines 363-385)

In the source, `tract` comes from `int` applied to the dataId entry tract, the patch components
from splitting the string the dataId entry patch at the comma, and the filter id
from the external `afwImage.Filter` id lookup on the dataId entry filter; the encoder
here takes those integers directly. -/

/-- Embedding of `LsstCamMapper._computeCoaddExposureId`.  Range checks are
performed in source order (tract, then patchX, then patchY); `x << n` is
written `x * 2 ^ n`. -/
def computeCoaddExposureId (tract patchX patchY filterId : Int)
    (singleFilter : Bool) : Except String Int :=
  if tract < 0 ∨ 2 ^ nbit_tract ≤ tract then
    .error "tract not in range"
  else if patchX < 0 ∨ 2 ^ nbit_patch ≤ patchX then
    .error "patch component not in range"
  else if patchY < 0 ∨ 2 ^ nbit_patch ≤ patchY then
    .error "patch component not in range"
  else
    let oid := ((tract * 2 ^ nbit_patch) + patchX) * 2 ^ nbit_patch + patchY
    if singleFilter then
      .ok (oid * 2 ^ nbit_filter + filterId)
    else
      .ok oid

/-- `bypass_deepCoaddId_bits` (lines 387-389): `64 - LsstCamMapper._nbit_id`. -/
def bypass_deepCoaddId_bits : Nat := 64 - nbit_id

/-- `bypass_deepMergedCoaddId_bits` (lines 400-402): `64 - LsstCamMapper._nbit_id`. -/
def bypass_deepMergedCoaddId_bits : Nat := 64 - nbit_id

end LsstCamMapper

namespace LsstCamMapper

/-! ### Helper lemma: the in-range branch of the encoder -/

theorem computeCoaddExposureId_ok (t pX pY f : Nat)
    (ht : t < 2 ^ nbit_tract) (hx : pX < 2 ^ nbit_patch) (hy : pY < 2 ^ nbit_patch)
    (sf : Bool) :
    computeCoaddExposureId t pX pY f sf =
      .ok (if sf then (((t * 32 + pX) * 32 + pY) * 64 + f : Int)
           else (((t * 32 + pX) * 32 + pY : Int))) := by
  unfold computeCoaddExposureId
  rw [if_neg, if_neg, if_neg]
  · cases sf <;> simp [nbit_patch, nbit_filter]
  · simp only [nbit_patch] at *
    push_cast
    omega
  · simp only [nbit_patch] at *
    push_cast
    omega
  · simp only [nbit_tract] at *
    push_cast
    omega

end LsstCamMapper

/-- C1: for every in-range dataId (tract `t < 2^16`, patch components
`pX, pY < 2^5`, filter id `f`), the coadd identifier encoder returns
`(((t << 5) + pX) << 5) + pY` when no filter is included and
`((((t << 5) + pX) << 5) + pY) << 6 + f` when a single filter is included;
in particular tract=1, patch=(2,3) encodes to 1091 before the filter shift,
and tract=0, patch=(0,0), filter id=5 encodes to 5. -/
theorem C1_coadd_id_packing (t pX pY f : Nat)
    (ht : t < 2 ^ 16) (hx : pX < 2 ^ 5) (hy : pY < 2 ^ 5) :
    LsstCamMapper.computeCoaddExposureId t pX pY f false =
        .ok (((t * 2 ^ 5 + pX) * 2 ^ 5 + pY : Int)) ∧
    LsstCamMapper.computeCoaddExposureId t pX pY f true =
        .ok ((((t * 2 ^ 5 + pX) * 2 ^ 5 + pY) * 2 ^ 6 + f : Int)) := by
  constructor
  · rw [LsstCamMapper.computeCoaddExposureId_ok t pX pY f ht hx hy false]
    norm_num
  · rw [LsstCamMapper.computeCoaddExposureId_ok t pX pY f ht hx hy true]
    norm_num

/-- Witness for C1: the two concrete examples from the spec, obtained by applying
`C1_coadd_id_packing` at tract=1, patch=(2,3) and at tract=0, patch=(0,0),
filter id 5. -/
theorem C1_coadd_id_packing_witness :
    LsstCamMapper.computeCoaddExposureId 1 2 3 0 false = .ok 1091 ∧
    LsstCamMapper.computeCoaddExposureId 0 0 0 5 true = .ok 5 := by
  refine ⟨?_, ?_⟩
  · have h := (C1_coadd_id_packing 1 2 3 0 (by norm_num) (by norm_num) (by norm_num)).1
    simpa using h
  · have h := (C1_coadd_id_packing 0 0 0 5 (by norm_num) (by norm_num) (by norm_num)).2
    simpa using h

/-- C2: the coadd identifier encoder raises (returns an error) whenever tract
is negative or at least `2^16`, or a patch component is negative or at least
`2^5`; for in-range inputs the range checks do not fire and a value is
returned. -/
theorem C2_coadd_id_range_checks (t pX pY f : Int) (sf : Bool) :
    ((t < 0 ∨ 2 ^ 16 ≤ t ∨ pX < 0 ∨ 2 ^ 5 ≤ pX ∨ pY < 0 ∨ 2 ^ 5 ≤ pY) →
      ∃ msg, LsstCamMapper.computeCoaddExposureId t pX pY f sf = .error msg) ∧
    ((0 ≤ t ∧ t < 2 ^ 16 ∧ 0 ≤ pX ∧ pX < 2 ^ 5 ∧ 0 ≤ pY ∧ pY < 2 ^ 5) →
      ∃ v, LsstCamMapper.computeCoaddExposureId t pX pY f sf = .ok v) := by
  unfold LsstCamMapper.computeCoaddExposureId
  simp only [LsstCamMapper.nbit_tract, LsstCamMapper.nbit_patch]
  constructor
  · intro hbad
    by_cases h1 : t < 0 ∨ (2 : Int) ^ 16 ≤ t
    · rw [if_pos h1]; exact ⟨_, rfl⟩
    · rw [if_neg h1]
      by_cases h2 : pX < 0 ∨ (2 : Int) ^ 5 ≤ pX
      · rw [if_pos h2]; exact ⟨_, rfl⟩
      · rw [if_neg h2]
        by_cases h3 : pY < 0 ∨ (2 : Int) ^ 5 ≤ pY
        · rw [if_pos h3]; exact ⟨_, rfl⟩
        · exfalso; push_neg at h1 h2 h3; omega
  · rintro ⟨h1, h2, h3, h4, h5, h6⟩
    rw [if_neg (by omega), if_neg (by omega), if_neg (by omega)]
    cases sf <;> exact ⟨_, rfl⟩

/-- Witness for C2: tract = `2^16` fails (is not silently truncated), and the
in-range dataId tract=1, patch=(2,3) succeeds. -/
theorem C2_coadd_id_range_checks_witness :
    (∃ msg, LsstCamMapper.computeCoaddExposureId 65536 0 0 0 false = .error msg) ∧
    (∃ v, LsstCamMapper.computeCoaddExposureId 1 2 3 0 false = .ok v) := by
  constructor
  · exact (C2_coadd_id_range_checks 65536 0 0 0 false).1 (by norm_num)
  · exact (C2_coadd_id_range_checks 1 2 3 0 false).2 (by norm_num)

/-- C9: the bit-width companions report the width actually consumed: both
report `16 + 5 + 5 + 6 = 32`, and every identifier produced by the encoder
from in-range fields (filter id below `2^6`) is strictly below `2^32`. -/
theorem C9_coadd_id_bits (t pX pY f : Nat)
    (ht : t < 2 ^ 16) (hx : pX < 2 ^ 5) (hy : pY < 2 ^ 5) (hf : f < 2 ^ 6)
    (sf : Bool) :
    LsstCamMapper.bypass_deepCoaddId_bits =
        LsstCamMapper.nbit_tract + 2 * LsstCamMapper.nbit_patch +
          LsstCamMapper.nbit_filter ∧
    LsstCamMapper.bypass_deepCoaddId_bits = 32 ∧
    LsstCamMapper.bypass_deepMergedCoaddId_bits = 32 ∧
    ∃ v, LsstCamMapper.computeCoaddExposureId t pX pY f sf = .ok v ∧
      v < 2 ^ LsstCamMapper.bypass_deepCoaddId_bits := by
  refine ⟨rfl, rfl, rfl, ?_⟩
  rw [LsstCamMapper.computeCoaddExposureId_ok t pX pY f ht hx hy sf]
  refine ⟨_, rfl, ?_⟩
  have hb : LsstCamMapper.bypass_deepCoaddId_bits = 32 := rfl
  rw [hb]
  cases sf <;> simp only [if_true, if_false, Bool.false_eq_true] <;> push_cast <;> omega

/-- Witness for C9: instantiated at tract=1, patch=(2,3), filter id 5. -/
theorem C9_coadd_id_bits_witness :
    LsstCamMapper.bypass_deepCoaddId_bits = 32 ∧
    ∃ v, LsstCamMapper.computeCoaddExposureId 1 2 3 5 true = .ok v ∧
      v < 2 ^ LsstCamMapper.bypass_deepCoaddId_bits := by
  have h := C9_coadd_id_bits 1 2 3 5 (by norm_num) (by norm_num) (by norm_num)
    (by norm_num) true
  exact ⟨h.2.1, h.2.2.2⟩

namespace AssembleRaw

/-! ### Data model for `assemble_raw` (lines 46-165) and `getWcsFromDetector`
(lines 174-202)

Geometry objects come from the external `lsst.afw.cameraGeom` / `lsst.geom`
packages; only the fields `assemble_raw` reads or writes are modelled.  A box
is stored as begin point plus extent, matching `geom.BoxI(begin, extent)`. -/

/-- `lsst.geom.Box2I`: begin point `(x0, y0)` and extent `(w, h)`. -/
structure Box where
  x0 : Int
  y0 : Int
  w : Int
  h : Int
deriving DecidableEq, Repr

/-- The dimensions (`getDimensions()`) of a box. -/
def Box.dimensions (b : Box) : Int × Int := (b.w, b.h)

/-- `inner` spans the full height of `outer` (same y-origin, same height). -/
def Box.spansFullHeight (inner outer : Box) : Prop :=
  inner.y0 = outer.y0 ∧ inner.h = outer.h

/-- `inner` spans the full width of `outer` (same x-origin, same width). -/
def Box.spansFullWidth (inner outer : Box) : Prop :=
  inner.x0 = outer.x0 ∧ inner.w = outer.w

instance (inner outer : Box) : Decidable (Box.spansFullHeight inner outer) :=
  instDecidableAnd

instance (inner outer : Box) : Decidable (Box.spansFullWidth inner outer) :=
  instDecidableAnd

/-- `lsst.afw.cameraGeom.Amplifier`: the fields read or written by
`assemble_raw`.  `rawXYOffset` is kept as a pair of rationals because the
patched Y offset is computed with Python float division (`y0/oh`, line 122)
and so can be fractional. -/
structure Amp where
  name : String
  bbox : Box
  rawBBox : Box
  rawDataBBox : Box
  rawHOverscanBBox : Box
  rawVOverscanBBox : Box
  rawXYOffset : ℚ × ℚ
deriving DecidableEq

/-- The IRAF-style header keywords read by the cross-check, already parsed
into boxes by the external `lsst.obs.base.bboxFromIraf` (`None` when the
keyword is absent from the header). -/
structure AmpMetadata where
  detsec : Option Box
  datasec : Option Box
  biassec : Option Box
deriving DecidableEq

/-- Camera coordinate systems used by `getWcsFromDetector`
(`cameraGeom.PIXELS`, `cameraGeom.FIELD_ANGLE`). -/
inductive CameraSys where
  | PIXELS
  | FIELD_ANGLE
deriving DecidableEq

/-- A reference to a detector coordinate transform, recording which
transform of which detector between which systems was requested (the transform
itself lives in the external camera-geometry framework). -/
structure TransformRef where
  detectorName : String
  fromSys : CameraSys
  toSys : CameraSys
deriving DecidableEq

/-- `lsst.afw.cameraGeom.Detector`: an ordered collection of amplifiers. -/
structure Detector where
  name : String
  amps : List Amp
deriving DecidableEq

/-- `detector.getTransform(fromSys, toSys)` (external): recorded by
reference. -/
def Detector.getTransform (d : Detector) (fromSys toSys : CameraSys) :
    TransformRef :=
  ⟨d.name, fromSys, toSys⟩

/-- `lsst.geom.SpherePoint` as used here: RA/Dec in degrees plus the result
of `isFinite()` (the header can yield NaN coordinates, which rationals cannot
represent, so finiteness is recorded as a flag). -/
structure SpherePoint where
  ra : ℚ
  dec : ℚ
  isFinite : Bool
deriving DecidableEq

/-- The part of `lsst.afw.image.VisitInfo` read by `assemble_raw`: boresight
position and boresight rotation angle (degrees). -/
structure VisitInfo where
  boresightRaDec : SpherePoint
  boresightRotAngle : ℚ
deriving DecidableEq

/-- `lsst.afw.geom.SkyWcs` as produced by the external `makeSkyWcs`,
recording the arguments it was built from. -/
structure SkyWcs where
  pixelsToSky : TransformRef
  orientation : ℚ
  flipX : Bool
  boresight : SpherePoint
deriving DecidableEq

/-- External `lsst.afw.geom.makeSkyWcs(transform, orientation, flipX,
boresight)`: recorded by its arguments. -/
def makeSkyWcs (trans : TransformRef) (orientation : ℚ) (flipX : Bool)
    (boresight : SpherePoint) : SkyWcs :=
  ⟨trans, orientation, flipX, boresight⟩

/-- FITS header blob (`raw_hdu`): opaque key/value pairs. -/
abbrev Header := List (String × String)

/-- The per-amplifier exposure segment (`raw_amp` component): pixel-data
bounding box, parsed IRAF metadata, and the shared detector object
(`ampExp.getDetector()`). -/
structure AmpExp where
  bbox : Box
  meta : AmpMetadata
  detector : Detector
deriving DecidableEq

/-- `lsst.afw.image.Exposure`: the fields `assemble_raw` sets or reads after
assembly. -/
structure Exposure where
  detector : Detector
  metadata : Header
  visitInfo : Option VisitInfo
  wcs : Option SkyWcs
deriving DecidableEq

/-- Log levels used by the assembler (`logger.warn` / `logger.debug`). -/
inductive LogLevel where
  | warn
  | debug
deriving DecidableEq

/-- One emitted log message. -/
abbrev LogMsg := LogLevel × String

/-- The `componentInfo` dict: the `raw_amp` component list and the `raw_hdu`
header. -/
structure ComponentInfo where
  raw_amp : List AmpExp
  raw_hdu : Header

/-! ### Geometry reconciliation (lines 86-124) -/

/-- Embedding of the geometry-patching block of `assemble_raw` for one
amplifier (lines 86-124).  If the cameraGeom raw box disagrees with the data
box: fail when the active-area dimensions disagree with the nominal box,
otherwise extend the horizontal overscan in x to the data width, extend the
vertical overscan in y to the data height, replace the raw box by the data
box, and recompute the raw XY offset (X by floor division, Y by Python float
division — modelled exactly as rational division; a zero old dimension,
which Python would reject with `ZeroDivisionError`, is not modelled).
Returns the (possibly patched) amplifier, the emitted logs, and the updated
`warned` flag. -/
def patchAmpGeometry (warned : Bool) (amp : Amp) (ampExp : AmpExp) :
    Except String (Amp × List LogMsg × Bool) :=
  if amp.rawBBox ≠ ampExp.bbox then
    if amp.rawDataBBox.dimensions ≠ amp.bbox.dimensions then
      .error "Active area is the wrong size"
    else
      let logs : List LogMsg :=
        if warned then []
        else [(LogLevel.warn, "amp.getRawBBox() != data.getBBox(); patching.")]
      let w := ampExp.bbox.w
      let h := ampExp.bbox.h
      let ow := amp.rawBBox.w
      let oh := amp.rawBBox.h
      let hb := amp.rawHOverscanBBox
      let hOverscanBBox : Box := ⟨hb.x0, hb.y0, w - hb.x0, hb.h⟩
      let vb := amp.rawVOverscanBBox
      let vOverscanBBox : Box := ⟨vb.x0, vb.y0, vb.w, h - vb.y0⟩
      let amp1 : Amp :=
        { amp with rawBBox := ampExp.bbox,
                   rawHOverscanBBox := hOverscanBBox,
                   rawVOverscanBBox := vOverscanBBox }
      let xRawExtent := amp1.rawBBox.w
      let yRawExtent := amp1.rawBBox.h
      let x0 := amp.rawXYOffset.1
      let y0 := amp.rawXYOffset.2
      let ix : Int := ⌊x0 / (ow : ℚ)⌋
      let iy : ℚ := y0 / (oh : ℚ)
      let amp2 : Amp :=
        { amp1 with rawXYOffset := ((ix : ℚ) * (xRawExtent : ℚ),
                                    iy * (yRawExtent : ℚ)) }
      .ok (amp2, logs, true)
  else
    .ok (amp, [], warned)

/-! ### IRAF keyword cross-check (lines 130-141) -/

/-- Embedding of the DETSEC/DATASEC/BIASSEC cross-check (lines 130-141).
Messages go to `warn` for the first amplifier and `debug` afterwards; the
amplifier itself flows through untouched. -/
def checkIrafKeywords (i : Nat) (amp : Amp) (md : AmpMetadata) :
    Amp × List LogMsg :=
  let level := if i = 0 then LogLevel.warn else LogLevel.debug
  let l1 : List LogMsg :=
    match md.detsec with
    | some detsec =>
        if amp.bbox ≠ detsec then [(level, "DETSEC does not match")] else []
    | none => []
  let l2 : List LogMsg :=
    match md.datasec with
    | some datasec =>
        if amp.rawDataBBox ≠ datasec then [(level, "DATASEC does not match")]
        else []
    | none => []
  let l3 : List LogMsg :=
    match md.biassec with
    | some biassec =>
        if amp.rawHOverscanBBox ≠ biassec then
          [(level, "BIASSEC does not match")]
        else []
    | none => []
  (amp, l1 ++ l2 ++ l3)

/-- One iteration of the `for i, (amp, ampExp) in enumerate(zip(ccd, ampExps))`
loop (lines 83-141): geometry reconciliation followed by the IRAF keyword
cross-check. -/
def processAmp (i : Nat) (warned : Bool) (amp : Amp) (ampExp : AmpExp) :
    Except String (Amp × List LogMsg × Bool) := do
  let (amp1, logs1, warned1) ← patchAmpGeometry warned amp ampExp
  let (amp2, logs2) := checkIrafKeywords i amp1 ampExp.meta
  return (amp2, logs1 ++ logs2, warned1)

/-- The whole per-amplifier loop, threading the index and the `warned` flag
(`zip` stops at the shorter list, as in Python). -/
def processAmps : Nat → Bool → List Amp → List AmpExp →
    Except String (List Amp × List LogMsg)
  | _, _, [], _ => .ok ([], [])
  | _, _, _ :: _, [] => .ok ([], [])
  | i, warned, amp :: amps, ampExp :: ampExps => do
    let (amp1, logs1, warned1) ← processAmp i warned amp ampExp
    let (amps1, logs2) ← processAmps (i + 1) warned1 amps ampExps
    return (amp1 :: amps1, logs1 ++ logs2)

/-! ### WCS construction (lines 154-163 and 174-202) -/

/-- Embedding of `getWcsFromDetector` (lines 174-202): look up the detector
PIXELS→FIELD_ANGLE transform and hand it, with the rotation, flip flag and
boresight, to the external `makeSkyWcs`. -/
def getWcsFromDetector (detector : Detector) (boresight : SpherePoint)
    (rotation : ℚ) (flipX : Bool) : SkyWcs :=
  let trans := detector.getTransform CameraSys.PIXELS CameraSys.FIELD_ANGLE
  makeSkyWcs trans rotation flipX boresight

/-- Embedding of the tail of `assemble_raw` (lines 149-165): attach the
header and visit info, then set the WCS when the boresight is finite
(rotation argument `90*geom.degrees - rotangle`, `flipX` left at its default
`False`), otherwise log a warning and leave the WCS untouched.  The external
`MakeRawVisitInfoViaObsInfo` translator is the `makeVisitInfo` parameter. -/
def attachVisitInfoAndWcs (makeVisitInfo : Header → VisitInfo) (md : Header)
    (exposure : Exposure) : Exposure × List LogMsg :=
  let visitInfo := makeVisitInfo md
  let exposure1 : Exposure :=
    { exposure with metadata := md, visitInfo := some visitInfo }
  let boresight := visitInfo.boresightRaDec
  let rotangle := visitInfo.boresightRotAngle
  if boresight.isFinite then
    ({ exposure1 with
        wcs := some (getWcsFromDetector exposure1.detector boresight
                       (90 - rotangle) false) }, [])
  else
    (exposure1,
     [(LogLevel.warn,
       "Unable to set WCS from header as RA/Dec/Angle are unavailable")])

/-! ### The composite `assemble_raw` (lines 46-165)

The external `AssembleCcdTask.assembleCcd` (merging the amplifier segments
into one image) is a function parameter taking the patched detector and the
name-keyed amplifier segments. -/

/-- Embedding of `assemble_raw`. -/
def assemble_raw (assembleCcd : Detector → List (String × AmpExp) → Exposure)
    (makeVisitInfo : Header → VisitInfo) (dataId : String)
    (componentInfo : ComponentInfo) :
    Except String (Exposure × List LogMsg) := do
  let ampExps := componentInfo.raw_amp
  match ampExps with
  | [] => .error ("Unable to read raw_amps for " ++ dataId)
  | ampExp0 :: _ =>
    let ccd := ampExp0.detector
    let (amps1, logs1) ← processAmps 0 false ccd.amps ampExps
    let ccd1 : Detector := { ccd with amps := amps1 }
    let ampDict := (ccd1.amps.zip ampExps).map (fun p => (p.1.name, p.2))
    let exposure := assembleCcd ccd1 ampDict
    let (exposure1, logs2) :=
      attachVisitInfoAndWcs makeVisitInfo componentInfo.raw_hdu exposure
    return (exposure1, logs1 ++ logs2)

/-! ### Concrete fixtures used by witnesses and counterexamples -/

/-- An amplifier whose cameraGeom raw box (110x110) disagrees with the data
box but whose active area matches the nominal box, so the patch branch
runs. -/
def ampA : Amp :=
  { name := "A00"
    bbox := ⟨0, 0, 100, 100⟩
    rawBBox := ⟨0, 0, 110, 110⟩
    rawDataBBox := ⟨3, 0, 100, 100⟩
    rawHOverscanBBox := ⟨103, 0, 7, 100⟩
    rawVOverscanBBox := ⟨0, 100, 110, 10⟩
    rawXYOffset := (0, 0) }

/-- A data segment of 112x112 pixels for `ampA`. -/
def ampExpA : AmpExp :=
  { bbox := ⟨0, 0, 112, 112⟩
    meta := ⟨none, none, none⟩
    detector := ⟨"R22_S11", [ampA]⟩ }

/-- An amplifier whose active-area dimensions (99x100) disagree with its
nominal box (100x100), while its raw box also disagrees with the data box. -/
def ampB : Amp :=
  { name := "A01"
    bbox := ⟨0, 0, 100, 100⟩
    rawBBox := ⟨0, 0, 110, 110⟩
    rawDataBBox := ⟨3, 0, 99, 100⟩
    rawHOverscanBBox := ⟨103, 0, 7, 100⟩
    rawVOverscanBBox := ⟨0, 100, 110, 10⟩
    rawXYOffset := (0, 0) }

/-- A data segment of 112x112 pixels for `ampB`. -/
def ampExpB : AmpExp :=
  { bbox := ⟨0, 0, 112, 112⟩
    meta := ⟨none, none, none⟩
    detector := ⟨"R22_S11", [ampB]⟩ }

/-- An amplifier whose raw XY offset (5,5) is not a multiple of its old raw
dimensions (2x2), exposing the floor-vs-true division of line 122. -/
def ampC : Amp :=
  { name := "A02"
    bbox := ⟨0, 0, 3, 3⟩
    rawBBox := ⟨0, 0, 2, 2⟩
    rawDataBBox := ⟨0, 0, 3, 3⟩
    rawHOverscanBBox := ⟨0, 0, 1, 1⟩
    rawVOverscanBBox := ⟨0, 0, 1, 1⟩
    rawXYOffset := (5, 5) }

/-- A data segment of 3x3 pixels for `ampC`. -/
def ampExpC : AmpExp :=
  { bbox := ⟨0, 0, 3, 3⟩
    meta := ⟨none, none, none⟩
    detector := ⟨"R22_S11", [ampC]⟩ }

/-- A trivial stand-in for the external `AssembleCcdTask.assembleCcd`. -/
def trivialAssemble : Detector → List (String × AmpExp) → Exposure :=
  fun d _ => ⟨d, [], none, none⟩

/-- A trivial stand-in for the external visit-info translator, yielding a
non-finite boresight. -/
def trivialVisitInfo : Header → VisitInfo :=
  fun _ => ⟨⟨0, 0, false⟩, 0⟩

/-- A visit-info translator with a finite boresight at RA 10, Dec 20 and
rotation angle 30 degrees. -/
def finiteVisitInfo : Header → VisitInfo :=
  fun _ => ⟨⟨10, 20, true⟩, 30⟩

/-- A bare exposure with no WCS attached, as produced by assembly. -/
def exposureW : Exposure := ⟨⟨"R22_S11", [ampA]⟩, [], none, none⟩

end AssembleRaw

namespace AssembleRaw

/-- C3: when the `raw_amp` component is an empty collection, `assemble_raw`
fails with a RuntimeError before any image assembly takes place (the result
is the same error for every assembly function, which is never consulted), so
no zero-size exposure is ever produced. -/
theorem C3_empty_amp_list_errors
    (assembleCcd : Detector → List (String × AmpExp) → Exposure)
    (makeVisitInfo : Header → VisitInfo) (dataId : String)
    (ci : ComponentInfo) (h : ci.raw_amp = []) :
    assemble_raw assembleCcd makeVisitInfo dataId ci =
      .error ("Unable to read raw_amps for " ++ dataId) := by
  unfold assemble_raw
  rw [h]

/-- Witness for C3: the empty component dictionary fails, independently of
the assembly function. -/
theorem C3_empty_amp_list_errors_witness :
    assemble_raw trivialAssemble trivialVisitInfo "raw" ⟨[], []⟩ =
      .error ("Unable to read raw_amps for " ++ "raw") :=
  C3_empty_amp_list_errors trivialAssemble trivialVisitInfo "raw" ⟨[], []⟩ rfl

/-- C4: when the geometry-declared raw box differs from the data box, the
patch block fails with a hard error if the active-area (raw-data) dimensions
differ from the nominal dimensions, and proceeds to patch the geometry (the
raw box becomes the data box) exactly when they match. -/
theorem C4_active_area_guard (warned : Bool) (amp : Amp) (ampExp : AmpExp)
    (hne : amp.rawBBox ≠ ampExp.bbox) :
    (amp.rawDataBBox.dimensions ≠ amp.bbox.dimensions →
       patchAmpGeometry warned amp ampExp =
         .error "Active area is the wrong size") ∧
    (amp.rawDataBBox.dimensions = amp.bbox.dimensions →
       ∃ out, patchAmpGeometry warned amp ampExp = .ok out ∧
         out.1.rawBBox = ampExp.bbox) := by
  constructor
  · intro hsz
    unfold patchAmpGeometry
    rw [if_pos hne, if_pos hsz]
  · intro hsz
    unfold patchAmpGeometry
    rw [if_pos hne, if_neg (fun hc => hc hsz)]
    exact ⟨_, rfl, rfl⟩

/-- Witness for C4: `ampB` has a 99x100 active area against a 100x100
nominal box, so the patch block fails hard. -/
theorem C4_active_area_guard_witness :
    patchAmpGeometry false ampB ampExpB =
      .error "Active area is the wrong size" :=
  (C4_active_area_guard false ampB ampExpB (by decide)).1 (by decide)

/-- `ampA` after the patch block has run against the 112x112 data segment. -/
def patchedA : Amp :=
  { name := "A00"
    bbox := ⟨0, 0, 100, 100⟩
    rawBBox := ⟨0, 0, 112, 112⟩
    rawDataBBox := ⟨3, 0, 100, 100⟩
    rawHOverscanBBox := ⟨103, 0, 9, 100⟩
    rawVOverscanBBox := ⟨0, 100, 110, 12⟩
    rawXYOffset := (0, 0) }

/-- Counterexample to C5: for the size-compatible mismatched amplifier
`ampA`, the corrected horizontal-overscan box (height 100) does not span the
full height (112) of the patched untrimmed box, and the corrected
vertical-overscan box (width 110) does not span its full width: the code
keeps each overscan dimension orthogonal to the growth direction unchanged. -/
theorem C5_overscan_claim_counterexample :
    patchAmpGeometry false ampA ampExpA =
      .ok (patchedA,
           [(LogLevel.warn, "amp.getRawBBox() != data.getBBox(); patching.")],
           true) ∧
    ¬ Box.spansFullHeight patchedA.rawHOverscanBBox patchedA.rawBBox ∧
    ¬ Box.spansFullWidth patchedA.rawVOverscanBBox patchedA.rawBBox := by
  refine ⟨?_, by decide, by decide⟩
  unfold patchAmpGeometry
  rw [if_pos (by decide), if_neg (by decide)]
  simp only [ampA, ampExpA, patchedA]
  norm_num

/-- C5 (amended): for every mismatched but size-compatible amplifier, the
corrected horizontal-overscan box keeps its origin and height and its
x-extent ends exactly at the patched untrimmed width, and the corrected
vertical-overscan box keeps its origin and width and its y-extent ends
exactly at the patched untrimmed height. -/
theorem C5_overscan_patch (warned : Bool) (amp : Amp) (ampExp : AmpExp)
    (hne : amp.rawBBox ≠ ampExp.bbox)
    (hsz : amp.rawDataBBox.dimensions = amp.bbox.dimensions) :
    ∃ out, patchAmpGeometry warned amp ampExp = .ok out ∧
      out.1.rawBBox = ampExp.bbox ∧
      out.1.rawHOverscanBBox.x0 = amp.rawHOverscanBBox.x0 ∧
      out.1.rawHOverscanBBox.y0 = amp.rawHOverscanBBox.y0 ∧
      out.1.rawHOverscanBBox.h = amp.rawHOverscanBBox.h ∧
      out.1.rawHOverscanBBox.x0 + out.1.rawHOverscanBBox.w =
        out.1.rawBBox.w ∧
      out.1.rawVOverscanBBox.x0 = amp.rawVOverscanBBox.x0 ∧
      out.1.rawVOverscanBBox.y0 = amp.rawVOverscanBBox.y0 ∧
      out.1.rawVOverscanBBox.w = amp.rawVOverscanBBox.w ∧
      out.1.rawVOverscanBBox.y0 + out.1.rawVOverscanBBox.h =
        out.1.rawBBox.h := by
  unfold patchAmpGeometry
  rw [if_pos hne, if_neg (fun hc => hc hsz)]
  refine ⟨_, rfl, rfl, rfl, rfl, rfl, ?_, rfl, rfl, rfl, ?_⟩ <;> dsimp <;> ring

/-- Witness for C5 (amended): instantiated at `ampA`. -/
theorem C5_overscan_patch_witness :
    ∃ out, patchAmpGeometry false ampA ampExpA = .ok out ∧
      out.1.rawHOverscanBBox.x0 + out.1.rawHOverscanBBox.w =
        out.1.rawBBox.w ∧
      out.1.rawVOverscanBBox.y0 + out.1.rawVOverscanBBox.h =
        out.1.rawBBox.h := by
  obtain ⟨out, h1, _, _, _, _, h6, _, _, _, h10⟩ :=
    C5_overscan_patch false ampA ampExpA (by decide) (by decide)
  exact ⟨out, h1, h6, h10⟩

/-- `ampC` after the patch block has run against the 3x3 data segment: the X
offset follows the integer rule (floor(5/2)*3 = 6) while the Y offset is the
float-division value (5/2)*3 = 15/2. -/
def patchedC : Amp :=
  { name := "A02"
    bbox := ⟨0, 0, 3, 3⟩
    rawBBox := ⟨0, 0, 3, 3⟩
    rawDataBBox := ⟨0, 0, 3, 3⟩
    rawHOverscanBBox := ⟨0, 0, 3, 1⟩
    rawVOverscanBBox := ⟨0, 0, 1, 3⟩
    rawXYOffset := (6, 15 / 2) }

/-- C6 divergence: at `ampC` (offset (5,5), old raw dims 2x2, new dims 3x3)
the code computes the X offset by the integer proportional rule,
floor(5/2)*3 = 6, but the Y offset by float division, (5/2)*3 = 15/2; the
two components of identical numeric inputs disagree, so X and Y are not
computed by the same (integer) rule as the claim states. -/
theorem C6_offset_division_divergence :
    patchAmpGeometry false ampC ampExpC =
      .ok (patchedC,
           [(LogLevel.warn, "amp.getRawBBox() != data.getBBox(); patching.")],
           true) ∧
    patchedC.rawXYOffset.1 = ((⌊(5 : ℚ) / 2⌋ : ℚ) * 3 : ℚ) ∧
    patchedC.rawXYOffset.2 = ((5 : ℚ) / 2 * 3 : ℚ) ∧
    patchedC.rawXYOffset.2 ≠ patchedC.rawXYOffset.1 := by
  refine ⟨?_, ?_, ?_, ?_⟩
  · unfold patchAmpGeometry
    rw [if_pos (by decide), if_neg (by decide)]
    simp only [ampC, ampExpC, patchedC]
    norm_num
  · simp only [patchedC]
    norm_num
  · simp only [patchedC]
    norm_num
  · simp only [patchedC]
    norm_num

/-- C7: the DETSEC/DATASEC/BIASSEC cross-check is pure logging: it returns
the amplifier record exactly as it received it (nominal, raw-data and
overscan boxes included), and the per-amplifier loop body therefore produces
exactly the geometry of the patch block, with the cross-check contributing
only log messages and never an error. -/
theorem C7_iraf_check_is_log_only (i : Nat) (warned : Bool) (amp : Amp)
    (ampExp : AmpExp) (md : AmpMetadata) :
    (checkIrafKeywords i amp md).1 = amp ∧
    processAmp i warned amp ampExp =
      Except.map
        (fun out =>
          (out.1, out.2.1 ++ (checkIrafKeywords i out.1 ampExp.meta).2,
           out.2.2))
        (patchAmpGeometry warned amp ampExp) := by
  refine ⟨rfl, ?_⟩
  unfold processAmp
  cases h : patchAmpGeometry warned amp ampExp with
  | error e => simp [h, Except.map]
  | ok out => simp [h, Except.map, checkIrafKeywords]

/-- C8: the assembled exposure gets a WCS exactly when the header-derived
boresight is finite; the WCS is built (via `getWcsFromDetector`, that is,
via `makeSkyWcs` on the PIXELS to FIELD_ANGLE transform) from the detector
transform, the boresight, and rotation 90 degrees minus the boresight
rotation angle, with `flipX` left `false`; when the boresight is not finite
the WCS stays unset, a warning is logged, and the exposure is still
returned with its detector and visit info attached. -/
theorem C8_wcs_set_iff_boresight_finite (mk : Header → VisitInfo)
    (md : Header) (exposure : Exposure) (h : exposure.wcs = none) :
    ((attachVisitInfoAndWcs mk md exposure).1.wcs.isSome =
       (mk md).boresightRaDec.isFinite) ∧
    ((mk md).boresightRaDec.isFinite = true →
       (attachVisitInfoAndWcs mk md exposure).1.wcs =
         some (getWcsFromDetector exposure.detector (mk md).boresightRaDec
                 (90 - (mk md).boresightRotAngle) false) ∧
       (attachVisitInfoAndWcs mk md exposure).2 = []) ∧
    ((mk md).boresightRaDec.isFinite = false →
       (attachVisitInfoAndWcs mk md exposure).1.wcs = none ∧
       (attachVisitInfoAndWcs mk md exposure).2 =
         [(LogLevel.warn,
           "Unable to set WCS from header as RA/Dec/Angle are unavailable")]) ∧
    (attachVisitInfoAndWcs mk md exposure).1.detector = exposure.detector ∧
    (attachVisitInfoAndWcs mk md exposure).1.visitInfo = some (mk md) ∧
    (∀ d b r f, getWcsFromDetector d b r f =
       makeSkyWcs (d.getTransform CameraSys.PIXELS CameraSys.FIELD_ANGLE)
         r f b) := by
  unfold attachVisitInfoAndWcs
  cases hb : (mk md).boresightRaDec.isFinite <;>
    simp [hb, h, getWcsFromDetector]

/-- Witness for C8: with a finite boresight (RA 10, Dec 20, rotation 30) the
exposure receives the WCS built from the detector transform, the boresight,
and rotation 90 - 30. -/
theorem C8_wcs_set_iff_boresight_finite_witness :
    (attachVisitInfoAndWcs finiteVisitInfo [] exposureW).1.wcs =
      some (getWcsFromDetector exposureW.detector ⟨10, 20, true⟩
              (90 - 30) false) :=
  (((C8_wcs_set_iff_boresight_finite finiteVisitInfo [] exposureW
      rfl).2.1) rfl).1

end AssembleRaw

namespace QueryRawAmp

/-! ### `LsstCamMapper.query_raw_amp` (lines 414-463)

The underlying `query_raw` (a forward to the Gen2 butler registry query) is
external, so it enters as a function parameter.  Field values are modelled
as integers; a dataId is a key/value dictionary. -/

/-- One query result row (a Python tuple of field values). -/
abbrev Row := List Int

/-- A possibly-incomplete dataId. -/
abbrev DataId := List (String × Int)

/-- `nChannel = 16`: number of possible channels, `1..nChannel` (line 435). -/
def nChannel : Int := 16

/-- Python `list.insert(i, c)`: insert `c` before position `i`, appending
when `i` is at or past the end. -/
def insertAt (i : Nat) (c : Int) (row : Row) : Row :=
  row.take i ++ c :: row.drop i

/-- `range(1, nChannel + 1)`: the full channel list (line 444). -/
def channelList : List Int :=
  (List.range nChannel.toNat).map (fun k => (k : Int) + 1)

/-- One iteration of the result loop (lines 455-461): pass the row through
when no channel column was requested, otherwise append one copy per channel
with the channel value inserted at `channelIndex`. -/
def expandStep (channels : List Int) (channelIndex : Option Nat)
    (dids : List Row) (value : Row) : List Row :=
  match channelIndex with
  | none => dids ++ [value]
  | some i => dids ++ channels.map (fun c => insertAt i c value)

/-- The `for value in self.query_raw(format, dataId)` loop (lines 453-461),
with the `dids` accumulator threaded as in the source. -/
def expandResults (channels : List Int) (channelIndex : Option Nat)
    (results : List Row) : List Row :=
  results.foldl (expandStep channels channelIndex) []

/-- Embedding of `LsstCamMapper.query_raw_amp`.  A dataId-supplied channel
is popped from the query and range-checked (raising `ValueError` when out of
`1..16`) before the query runs; a `channel` column requested by `format` is
removed from the query and its index remembered for reinsertion. -/
def query_raw_amp (query : List String → DataId → List Row)
    (format : List String) (dataId : DataId) : Except String (List Row) :=
  match dataId.lookup "channel" with
  | some channel =>
    let dataId2 := dataId.eraseP (fun kv => kv.1 == "channel")
    if nChannel < channel ∨ channel < 1 then
      .error "Requested channel is out of range"
    else
      run query format dataId2 [channel]
  | none =>
    run query format dataId channelList
where
  /-- Lines 446-463: strip a requested `channel` column from the format,
  run the query, and expand the results. -/
  run (query : List String → DataId → List Row) (format : List String)
      (dataId2 : DataId) (channels : List Int) : Except String (List Row) :=
    if format.contains "channel" then
      let channelIndex := format.indexOf "channel"
      .ok (expandResults channels (some channelIndex)
            (query (format.eraseIdx channelIndex) dataId2))
    else
      .ok (expandResults channels none (query format dataId2))

theorem foldl_expandStep_some (channels : List Int) (i : Nat) :
    ∀ (results acc : List Row),
      results.foldl (expandStep channels (some i)) acc =
        acc ++ results.flatMap (fun v => channels.map (fun c => insertAt i c v))
  | [], acc => by simp
  | v :: vs, acc => by
    rw [List.foldl_cons, foldl_expandStep_some channels i vs]
    simp [expandStep, List.append_assoc]

theorem expandResults_some (channels : List Int) (i : Nat)
    (results : List Row) :
    expandResults channels (some i) results =
      results.flatMap (fun v => channels.map (fun c => insertAt i c v)) := by
  simpa [expandResults] using foldl_expandStep_some channels i results []

end QueryRawAmp

namespace QueryRawAmp

theorem flatMap_singleton_eq_map {α β : Type} (l : List α) (f : α → β) :
    (l.flatMap fun x => [f x]) = l.map f := by
  induction l <;> simp_all

theorem channelList_length : channelList.length = 16 := by
  rfl

theorem length_flatMap_const {α β : Type} (l : List α) (f : α → List β)
    (n : Nat) (h : ∀ a, (f a).length = n) :
    (l.flatMap f).length = n * l.length := by
  induction l with
  | nil => simp
  | cons a as ih => simp [List.flatMap_cons, h a, ih, Nat.mul_succ, Nat.add_comm]

end QueryRawAmp

namespace QueryRawAmp

/-- C10: channel handling of `query_raw_amp`: a dataId channel outside
`1..16` raises ValueError before the query runs (the error is the same for
every query function); an in-range dataId channel with a `channel` column in
the format yields exactly the underlying results with that channel value
inserted at the requested position; and with no dataId channel, each
underlying result is expanded into exactly 16 tuples, one per channel
`1..16`, inserted at the requested position. -/
theorem C10_query_raw_amp_channel_handling
    (query : List String → DataId → List Row)
    (format : List String) (dataId : DataId) :
    (∀ c, dataId.lookup "channel" = some c → (c < 1 ∨ 16 < c) →
       query_raw_amp query format dataId =
         .error "Requested channel is out of range") ∧
    (∀ c, dataId.lookup "channel" = some c → 1 ≤ c → c ≤ 16 →
       "channel" ∈ format →
       query_raw_amp query format dataId =
         .ok ((query (format.eraseIdx (format.indexOf "channel"))
                 (dataId.eraseP (fun kv => kv.1 == "channel"))).map
               (insertAt (format.indexOf "channel") c))) ∧
    (dataId.lookup "channel" = none → "channel" ∈ format →
       channelList = [1, 2, 3, 4, 5, 6, 7, 8, 9, 10, 11, 12, 13, 14, 15, 16] ∧
       query_raw_amp query format dataId =
         .ok ((query (format.eraseIdx (format.indexOf "channel"))
                 dataId).flatMap
               (fun v => channelList.map
                  (fun c => insertAt (format.indexOf "channel") c v))) ∧
       ((query (format.eraseIdx (format.indexOf "channel")) dataId).flatMap
           (fun v => channelList.map
              (fun c => insertAt (format.indexOf "channel") c v))).length =
         16 * (query (format.eraseIdx (format.indexOf "channel"))
                 dataId).length) := by
  refine ⟨?_, ?_, ?_⟩
  · intro c hc hrange
    unfold query_raw_amp
    simp only [hc]
    rw [if_pos]
    rcases hrange with h1 | h2
    · exact Or.inr h1
    · exact Or.inl (by simpa [nChannel] using h2)
  · intro c hc h1 h16 hfmt
    unfold query_raw_amp
    simp only [hc]
    rw [if_neg (by simp only [nChannel]; omega)]
    unfold query_raw_amp.run
    rw [if_pos (by simpa using hfmt)]
    dsimp only
    rw [expandResults_some]
    simp [flatMap_singleton_eq_map]
  · intro hc hfmt
    refine ⟨by decide, ?_, ?_⟩
    · unfold query_raw_amp
      simp only [hc]
      unfold query_raw_amp.run
      rw [if_pos (by simpa using hfmt)]
      dsimp only
      rw [expandResults_some]
    · exact length_flatMap_const _ _ 16
        (fun v => by rw [List.length_map, channelList_length])

/-- A registry query stub returning one row, `(7,)`. -/
def q0 : List String → DataId → List Row := fun _ _ => [[7]]

/-- Witness for C10: with no channel in the dataId and format
`(visit, channel)`, the single underlying row `(7,)` expands to the sixteen
rows `(7, 1) .. (7, 16)`. -/
theorem C10_query_raw_amp_channel_handling_witness :
    query_raw_amp q0 ["visit", "channel"] [("visit", 3)] =
      .ok [[7, 1], [7, 2], [7, 3], [7, 4], [7, 5], [7, 6], [7, 7], [7, 8],
           [7, 9], [7, 10], [7, 11], [7, 12], [7, 13], [7, 14], [7, 15],
           [7, 16]] := by
  have h := ((C10_query_raw_amp_channel_handling q0 ["visit", "channel"]
    [("visit", 3)]).2.2 rfl (by simp)).2.1
  rw [h]
  rfl

end QueryRawAmp
